import Mathlib

/-!
# Verification of the browser-agent MCP tool layer (`browser-use.py`)

A shallow embedding of the tool functions of `browser-use.py`.  The external
browser-automation engine (the `browser_use` library) is modelled as an
oracle: each call to `controller.act` (together with the preceding
`create_action_model` construction) is one fallible dispatch, represented as
an `Except String ActionResult` value — `Except.error e` stands for a raised
Python exception whose string form is `e`.  Python string truthiness
(`if result.extracted_content:`) is modelled by `truthy` on `Option String`.
-/

/-- Python truthiness of an `Optional[str]` value: `None` and the empty
string are falsy, every non-empty string is truthy. -/
def truthy : Option String → Bool
  | none => false
  | some s => !s.isEmpty

/-- The two fields of the engine's `ActionResult` that the tool layer reads:
`extracted_content` and `error`, both optional strings. -/
structure ActionResult where
  extracted_content : Option String
  error : Option String
deriving Repr, DecidableEq, Inhabited

/-- One entry of the `actions` list passed to `execute_multiple_actions`:
a Python dict that may or may not carry the keys `"name"` and `"params"`.
A missing key is `none`; `params` is a string-keyed mapping. -/
structure ActionObj where
  name : Option String
  params : Option (List (String × String))
deriving Repr, DecidableEq, Inhabited

/-- The browser state fields read by `get_browser_state`: `state.url`,
`state.title`, the rendered tab dump, and
`state.element_tree.clickable_elements_to_string()`. -/
structure BrowserState where
  url : String
  title : String
  tabsText : String
  elementsText : String
deriving Repr, DecidableEq

/-- `get_browser_state`: formats the state read from the context, or catches
the exception and returns the error text. -/
def get_browser_state (stateRead : Except String BrowserState) : String :=
  match stateRead with
  | Except.ok state =>
      "\nCurrent URL: " ++ state.url ++ "\nTitle: " ++ state.title ++
      "\nAvailable tabs: " ++ state.tabsText ++ "\nInteractive elements:\n" ++
      state.elementsText ++ "\n"
  | Except.error e => "Error getting browser state: " ++ e

/-- The bare-success message of `execute_action` and of the success branch in
the `execute_multiple_actions` loop. -/
def successMsg (action_name : String) : String :=
  "Action " ++ action_name ++ " executed successfully"

/-- `execute_action`: dispatches one action (the oracle argument) and formats
the result; a raised exception is caught and returned as error text. -/
def execute_action (action_name : String)
    (dispatch : Except String ActionResult) : String :=
  match dispatch with
  | Except.ok result =>
      if truthy result.extracted_content then result.extracted_content.getD ""
      else if truthy result.error then "Error: " ++ result.error.getD ""
      else successMsg action_name
  | Except.error e => "Error executing action: " ++ e

/-- `navigate_to_url`: dispatches `go_to_url` and formats the result. -/
def navigate_to_url (url : String)
    (dispatch : Except String ActionResult) : String :=
  match dispatch with
  | Except.ok result =>
      if truthy result.extracted_content then result.extracted_content.getD ""
      else if truthy result.error then "Error: " ++ result.error.getD ""
      else "Navigated to " ++ url ++ " successfully"
  | Except.error e => "Error navigating to URL: " ++ e

/-- `click_element`: dispatches `click_element` at `index` and formats the
result. -/
def click_element (index : Int)
    (dispatch : Except String ActionResult) : String :=
  match dispatch with
  | Except.ok result =>
      if truthy result.extracted_content then result.extracted_content.getD ""
      else if truthy result.error then "Error: " ++ result.error.getD ""
      else "Clicked element with index " ++ toString index ++ " successfully"
  | Except.error e => "Error clicking element: " ++ e

/-- `input_text`: dispatches `input_text` and formats the result. -/
def input_text (index : Int) (text : String)
    (dispatch : Except String ActionResult) : String :=
  match dispatch with
  | Except.ok result =>
      if truthy result.extracted_content then result.extracted_content.getD ""
      else if truthy result.error then "Error: " ++ result.error.getD ""
      else "Input text \x27" ++ text ++ "\x27 into element with index " ++
           toString index ++ " successfully"
  | Except.error e => "Error inputting text: " ++ e

/-- `scroll_down`: dispatches `scroll_down` with an optional pixel amount and
formats the result. -/
def scroll_down (amount : Option Int)
    (dispatch : Except String ActionResult) : String :=
  match amount, dispatch with
  | _, Except.ok result =>
      if truthy result.extracted_content then result.extracted_content.getD ""
      else if truthy result.error then "Error: " ++ result.error.getD ""
      else "Scrolled down successfully"
  | _, Except.error e => "Error scrolling down: " ++ e

/-- `extract_content`: dispatches `extract_content` with a goal and formats
the result. -/
def extract_content (goal : String)
    (dispatch : Except String ActionResult) : String :=
  match goal, dispatch with
  | _, Except.ok result =>
      if truthy result.extracted_content then result.extracted_content.getD ""
      else if truthy result.error then "Error: " ++ result.error.getD ""
      else "Extracted content successfully"
  | _, Except.error e => "Error extracting content: " ++ e

/-- The constant error string appended for a malformed `actions` entry. -/
def invalidFormatMsg : String :=
  "Error: Invalid action format. Must include \x27name\x27 and \x27params\x27."

/-- Outcome of the `for`-loop body of `execute_multiple_actions`: either the
accumulated list of result strings, or a raised exception (caught by the
surrounding `try`). -/
inductive LoopOut where
  | ok (results : List String)
  | exn (e : String)
deriving Repr, DecidableEq

/-- Prepend an already-recorded result string to the remaining loop outcome;
an exception discards the accumulated results, as the `except` branch of the
source returns a fresh error string. -/
def pushResult (s : String) : LoopOut → LoopOut
  | LoopOut.ok rs => LoopOut.ok (s :: rs)
  | LoopOut.exn e => LoopOut.exn e

/-- The `for action_obj in actions:` loop of `execute_multiple_actions`,
with the dispatch oracle `d` indexed by loop position.  Returns the loop
outcome together with the list of positions whose action was dispatched
(i.e. where `controller.act` was called, successfully or not).  Mirrors the
source exactly: a malformed entry appends `invalidFormatMsg` and `continue`s;
a truthy `extracted_content` is recorded and the loop continues; otherwise a
truthy `error` is recorded as `"Error: ..."` and the loop `break`s; otherwise
the bare-success message is recorded and the loop continues. -/
def execLoop (d : Nat → Except String ActionResult) :
    List ActionObj → Nat → LoopOut × List Nat
  | [], _ => (LoopOut.ok [], [])
  | a :: rest, i =>
    if a.name.isNone || a.params.isNone then
      (pushResult invalidFormatMsg (execLoop d rest (i + 1)).1,
       (execLoop d rest (i + 1)).2)
    else
      match d i with
      | Except.error e => (LoopOut.exn e, [i])
      | Except.ok result =>
        if truthy result.extracted_content then
          (pushResult (result.extracted_content.getD "") (execLoop d rest (i + 1)).1,
           i :: (execLoop d rest (i + 1)).2)
        else if truthy result.error then
          (LoopOut.ok ["Error: " ++ result.error.getD ""], [i])
        else
          (pushResult (successMsg (a.name.getD "")) (execLoop d rest (i + 1)).1,
           i :: (execLoop d rest (i + 1)).2)

/-- The environment `execute_multiple_actions` runs against: the dispatch
oracle (outcome of `controller.act` at each loop position) and, for stating
spec-level conditions, the element-identity hashes of the page — the baseline
before the loop and the set after each action.  The hash fields are part of
the browser context's state; the source function never reads them. -/
structure BrowserEnv where
  dispatch : Nat → Except String ActionResult
  initialHashes : List String
  hashesAfter : Nat → List String

/-- `execute_multiple_actions`: runs the loop and joins the recorded results
with newlines; a raised exception is caught and returned as error text
(discarding the accumulated results). -/
def execute_multiple_actions (env : BrowserEnv) (actions : List ActionObj) : String :=
  match (execLoop env.dispatch actions 0).1 with
  | LoopOut.ok rs => String.intercalate "\n" rs
  | LoopOut.exn e => "Error executing multiple actions: " ++ e

/-- The positions of `actions` whose entry was dispatched to the engine
during `execute_multiple_actions`. -/
def dispatched (env : BrowserEnv) (actions : List ActionObj) : List Nat :=
  (execLoop env.dispatch actions 0).2

/-- Modelled from the spec: the element-referencing flag of an action — the
heuristic presence of an index-style parameter key.  No such flag exists in
`execute_multiple_actions` in the source. -/
def isElementReferencing (a : ActionObj) : Bool :=
  match a.params with
  | none => false
  | some ps => ps.any fun kv => kv.1 = "index"

/-- Modelled from the spec: subset comparison of identity-hash sets. -/
def hashSubset (xs ys : List String) : Bool :=
  xs.all fun h => ys.contains h

/-- Modelled from the spec: drift after action `i` — the freshly read hash
set is not a subset of the baseline.  The source never computes this. -/
def driftFlag (env : BrowserEnv) (i : Nat) : Bool :=
  !hashSubset (env.hashesAfter i) env.initialHashes

/-- Modelled from the spec: the synthetic interruption message the spec says
is appended when drift is detected.  The source never constructs it. -/
def interruptionMsg (i n : Nat) : String :=
  "page changed after action " ++ toString (i + 1) ++ "/" ++ toString n ++
  ", caller must fetch a fresh plan"

/-- Events of the server lifecycle, for `browser_lifespan`: the three
acquisitions at startup, the two closes at shutdown, and opaque steps of the
served body. -/
inductive LifeEvent where
  | acquireBrowser
  | newContext
  | newController
  | closeContext
  | closeBrowser
  | bodyStep (n : Nat)
deriving Repr, DecidableEq

/-- `browser_lifespan`: constructs the `Browser`, opens one context, builds
one `Controller`, yields to the served body (which performs its own events
and either returns `none` or raises `some e`), and in the `finally` block
closes the context and then the browser — also when the body raised; the
exception then propagates. -/
def browser_lifespan (body : List LifeEvent × Option String) :
    List LifeEvent × Option String :=
  ([LifeEvent.acquireBrowser, LifeEvent.newContext, LifeEvent.newController] ++
     body.1 ++ [LifeEvent.closeContext, LifeEvent.closeBrowser],
   body.2)

/-- The string the loop records for a well-formed action `a` whose dispatch
returned `r` (read off the three branches of the source's result handling). -/
def resultString (a : ActionObj) (r : ActionResult) : String :=
  if truthy r.extracted_content then r.extracted_content.getD ""
  else if truthy r.error then "Error: " ++ r.error.getD ""
  else successMsg (a.name.getD "")

/-- The results the loop is expected to record when every entry is
well-formed and no dispatch raises or records an error: one `resultString`
per action, in order. -/
def expectedResults (d : Nat → Except String ActionResult) :
    List ActionObj → Nat → List String
  | [], _ => []
  | a :: rest, i =>
    (match d i with
     | Except.ok r => resultString a r
     | Except.error e => e) :: expectedResults d rest (i + 1)

theorem expectedResults_length (d : Nat → Except String ActionResult)
    (actions : List ActionObj) :
    ∀ i, (expectedResults d actions i).length = actions.length := by
  induction actions with
  | nil => intro i; rfl
  | cons a rest ih => intro i; simp [expectedResults, ih]

theorem expectedResults_getD (d : Nat → Except String ActionResult)
    (actions : List ActionObj) :
    ∀ i j, j < actions.length →
      (expectedResults d actions i).getD j "" =
        (match d (i + j) with
         | Except.ok r => resultString (actions.getD j default) r
         | Except.error e => e) := by
  induction actions with
  | nil => intro i j hj; simp at hj
  | cons a rest ih =>
    intro i j hj
    cases j with
    | zero => simp [expectedResults]
    | succ j =>
      have hstep : i + (j + 1) = (i + 1) + j := by omega
      have hj' : j < rest.length := by simpa using Nat.lt_of_succ_lt_succ hj
      simp only [expectedResults, List.getD_cons_succ, hstep]
      exact ih (i + 1) j hj'

/-- Characterisation of the loop when every entry is well-formed and every
dispatch succeeds with a falsy `error` field: no branch breaks, every
position is dispatched, and the recorded results are `expectedResults`. -/
theorem execLoop_no_error (d : Nat → Except String ActionResult)
    (actions : List ActionObj) :
    ∀ i, (∀ a ∈ actions, a.name.isSome = true ∧ a.params.isSome = true) →
      (∀ j, j < actions.length → ∃ r, d (i + j) = Except.ok r ∧ truthy r.error = false) →
      execLoop d actions i =
        (LoopOut.ok (expectedResults d actions i), List.range' i actions.length) := by
  induction actions with
  | nil => intro i _ _; rfl
  | cons a rest ih =>
    intro i hwf hok
    obtain ⟨r, hd, herr⟩ := hok 0 (Nat.succ_pos _)
    rw [Nat.add_zero] at hd
    have hwa := hwf a (List.mem_cons_self a rest)
    have hname : a.name.isNone = false := by
      cases h : a.name <;> simp_all
    have hparams : a.params.isNone = false := by
      cases h : a.params <;> simp_all
    have hihyp := ih (i + 1)
      (fun b hb => hwf b (List.mem_cons_of_mem a hb))
      (fun j hj => by
        obtain ⟨r', h1, h2⟩ := hok (j + 1) (by simpa using Nat.succ_lt_succ hj)
        have hstep : i + (j + 1) = (i + 1) + j := by omega
        rw [hstep] at h1
        exact ⟨r', h1, h2⟩)
    by_cases hc : truthy r.extracted_content = true
    · simp [execLoop, hname, hparams, hd, hc, hihyp, pushResult,
        expectedResults, resultString, List.range', herr]
    · have hc' : truthy r.extracted_content = false := by
        simpa using hc
      simp [execLoop, hname, hparams, hd, hc', herr, hihyp, pushResult,
        expectedResults, resultString, List.range']

/-- Every position recorded in the dispatch trace of `execLoop` starting at
`i` is at least `i`. -/
theorem execLoop_trace_ge (d : Nat → Except String ActionResult)
    (actions : List ActionObj) :
    ∀ i j, j ∈ (execLoop d actions i).2 → i ≤ j := by
  induction actions with
  | nil => intro i j h; simp [execLoop] at h
  | cons a rest ih =>
    intro i j h
    by_cases hm : (a.name.isNone || a.params.isNone) = true
    · rw [show execLoop d (a :: rest) i =
          (pushResult invalidFormatMsg (execLoop d rest (i + 1)).1,
           (execLoop d rest (i + 1)).2) from by simp [execLoop, hm]] at h
      exact Nat.le_of_succ_le (ih (i + 1) j h)
    · have hm' : (a.name.isNone || a.params.isNone) = false := Bool.eq_false_iff.mpr hm
      cases hd : d i with
      | error e =>
        rw [show execLoop d (a :: rest) i = (LoopOut.exn e, [i]) from by
          simp [execLoop, hm', hd]] at h
        simp at h; omega
      | ok r =>
        by_cases hc : truthy r.extracted_content = true
        · rw [show execLoop d (a :: rest) i =
              (pushResult (r.extracted_content.getD "") (execLoop d rest (i + 1)).1,
               i :: (execLoop d rest (i + 1)).2) from by simp [execLoop, hm', hd, hc]] at h
          rcases List.mem_cons.mp h with h1 | h2
          · omega
          · exact Nat.le_of_succ_le (ih (i + 1) j h2)
        · have hc' : truthy r.extracted_content = false := Bool.eq_false_iff.mpr hc
          by_cases he : truthy r.error = true
          · rw [show execLoop d (a :: rest) i =
                (LoopOut.ok ["Error: " ++ r.error.getD ""], [i]) from by
              simp [execLoop, hm', hd, hc', he]] at h
            simp at h; omega
          · have he' : truthy r.error = false := Bool.eq_false_iff.mpr he
            rw [show execLoop d (a :: rest) i =
                (pushResult (successMsg (a.name.getD "")) (execLoop d rest (i + 1)).1,
                 i :: (execLoop d rest (i + 1)).2) from by
              simp [execLoop, hm', hd, hc', he']] at h
            rcases List.mem_cons.mp h with h1 | h2
            · omega
            · exact Nat.le_of_succ_le (ih (i + 1) j h2)

/-! ## Concrete fixtures used by counterexamples and witnesses -/

/-- A well-formed element-referencing action entry. -/
def actA : ActionObj := ⟨some "click_element", some [("index", "3")]⟩

/-- A well-formed action entry. -/
def actB : ActionObj := ⟨some "scroll_down", some [("amount", "100")]⟩

/-- A well-formed action entry. -/
def actC : ActionObj := ⟨some "extract_content", some [("goal", "g")]⟩

/-- A malformed entry: the `"name"` key is missing. -/
def badAct : ActionObj := ⟨none, some [("index", "1")]⟩

/-- Every dispatch succeeds with a bare result; the identity hashes drift
(`["h2"]` is not a subset of the baseline `["h1"]`). -/
def envDrift : BrowserEnv :=
  ⟨fun _ => Except.ok ⟨none, none⟩, ["h1"], fun _ => ["h2"]⟩

/-- Every dispatch succeeds with a bare result; the identity hashes never
change. -/
def envNoDrift : BrowserEnv :=
  ⟨fun _ => Except.ok ⟨none, none⟩, ["h1"], fun _ => ["h1"]⟩

/-- Every dispatch succeeds with extracted content `"OK"`. -/
def envContent : BrowserEnv :=
  ⟨fun _ => Except.ok ⟨some "OK", none⟩, [], fun _ => []⟩

/-- The first dispatch returns a result carrying both extracted content and
an error; later dispatches return bare successes. -/
def envBoth : BrowserEnv :=
  ⟨fun j => if j = 0 then Except.ok ⟨some "DATA", some "boom"⟩
            else Except.ok ⟨none, none⟩, [], fun _ => []⟩

/-- Every dispatch raises an exception. -/
def envExn : BrowserEnv :=
  ⟨fun _ => Except.error "boom", [], fun _ => []⟩

/-! ## Claim theorems -/

/-- C4: for a list of well-formed entries where no dispatch raises and no
dispatched result carries a truthy error (and the identity hashes never
drift), `execute_multiple_actions` dispatches all `N` actions in list order
(`dispatched = range N`), records exactly `N` result strings and returns
them joined by newlines, the `j`-th being the `j`-th result's extracted
content when truthy and the generic success message otherwise. -/
theorem execute_multiple_actions_all_success (env : BrowserEnv)
    (actions : List ActionObj)
    (hwf : ∀ a ∈ actions, a.name.isSome = true ∧ a.params.isSome = true)
    (hok : ∀ j, j < actions.length →
      ∃ r, env.dispatch j = Except.ok r ∧ truthy r.error = false)
    (hdrift : ∀ i, driftFlag env i = false) :
    dispatched env actions = List.range actions.length ∧
    (execLoop env.dispatch actions 0).1 =
      LoopOut.ok (expectedResults env.dispatch actions 0) ∧
    (expectedResults env.dispatch actions 0).length = actions.length ∧
    execute_multiple_actions env actions =
      String.intercalate "\n" (expectedResults env.dispatch actions 0) ∧
    ∀ j, j < actions.length → ∃ r, env.dispatch j = Except.ok r ∧
      (expectedResults env.dispatch actions 0).getD j "" =
        (if truthy r.extracted_content = true then r.extracted_content.getD ""
         else successMsg ((actions.getD j default).name.getD "")) := by
  have h := execLoop_no_error env.dispatch actions 0 hwf
    (fun j hj => by rw [Nat.zero_add]; exact hok j hj)
  refine ⟨?_, ?_, expectedResults_length _ _ 0, ?_, ?_⟩
  · unfold dispatched
    rw [h, List.range_eq_range']
  · rw [h]
  · unfold execute_multiple_actions
    rw [h]
  · intro j hj
    obtain ⟨r, hr, herr⟩ := hok j hj
    refine ⟨r, hr, ?_⟩
    rw [expectedResults_getD env.dispatch actions 0 j hj, Nat.zero_add, hr]
    by_cases hc : truthy r.extracted_content = true
    · simp [resultString, hc]
    · have hc' : truthy r.extracted_content = false := Bool.eq_false_iff.mpr hc
      simp [resultString, hc', herr]

/-- C4 witness: two bare-success actions under a drift-free environment
yield the two generic success messages in order. -/
theorem execute_multiple_actions_all_success_witness :
    dispatched envNoDrift [actA, actB] = List.range 2 ∧
    (execLoop envNoDrift.dispatch [actA, actB] 0).1 =
      LoopOut.ok (expectedResults envNoDrift.dispatch [actA, actB] 0) ∧
    (expectedResults envNoDrift.dispatch [actA, actB] 0).length = 2 ∧
    execute_multiple_actions envNoDrift [actA, actB] =
      String.intercalate "\n" (expectedResults envNoDrift.dispatch [actA, actB] 0) ∧
    ∀ j, j < ([actA, actB] : List ActionObj).length →
      ∃ r, envNoDrift.dispatch j = Except.ok r ∧
      (expectedResults envNoDrift.dispatch [actA, actB] 0).getD j "" =
        (if truthy r.extracted_content = true then r.extracted_content.getD ""
         else successMsg ((([actA, actB] : List ActionObj).getD j default).name.getD "")) :=
  execute_multiple_actions_all_success envNoDrift [actA, actB]
    (by decide)
    (fun j hj => ⟨⟨none, none⟩, rfl, rfl⟩)
    (fun i => rfl)

/-- C1 counterexample: a three-action plan whose first action is
element-referencing, run in an environment whose identity hashes drift after
every action.  The claim requires a synthetic interruption after the first
two real results, with action `i+2 = 2` never dispatched; the code instead
dispatches all three positions and records exactly the three per-action
success strings, with no synthetic interruption result. -/
theorem drift_interruption_counterexample :
    0 < ([actA, actB, actC] : List ActionObj).length - 1 ∧
    isElementReferencing actA = true ∧
    driftFlag envDrift 0 = true ∧
    dispatched envDrift [actA, actB, actC] = [0, 1, 2] ∧
    (execLoop envDrift.dispatch [actA, actB, actC] 0).1 =
      LoopOut.ok [successMsg "click_element", successMsg "scroll_down",
        successMsg "extract_content"] ∧
    execute_multiple_actions envDrift [actA, actB, actC] =
      successMsg "click_element" ++ "\n" ++ successMsg "scroll_down" ++ "\n" ++
        successMsg "extract_content" := by
  refine ⟨by decide, by decide, by decide, by decide, by decide, by decide⟩

/-- C1 amended: `execute_multiple_actions` performs no element-identity
monitoring.  Even when action `i` (with `i < n-1`) is element-referencing and
the identity hashes drift after it, as long as the entries are well-formed
and no dispatch raises or records an error, every position — including
`i+2..n-1` — is dispatched, and exactly `n` result strings are recorded, so
no synthetic interruption result is appended. -/
theorem drift_does_not_interrupt (env : BrowserEnv) (actions : List ActionObj)
    (i : Nat)
    (hi : i < actions.length - 1)
    (href : isElementReferencing (actions.getD i default) = true)
    (hdrift : driftFlag env i = true)
    (hwf : ∀ a ∈ actions, a.name.isSome = true ∧ a.params.isSome = true)
    (hok : ∀ j, j < actions.length →
      ∃ r, env.dispatch j = Except.ok r ∧ truthy r.error = false) :
    dispatched env actions = List.range actions.length ∧
    (∀ k, k < actions.length → k ∈ dispatched env actions) ∧
    (execLoop env.dispatch actions 0).1 =
      LoopOut.ok (expectedResults env.dispatch actions 0) ∧
    (expectedResults env.dispatch actions 0).length = actions.length := by
  have h := execLoop_no_error env.dispatch actions 0 hwf
    (fun j hj => by rw [Nat.zero_add]; exact hok j hj)
  have hd : dispatched env actions = List.range actions.length := by
    unfold dispatched
    rw [h, List.range_eq_range']
  refine ⟨hd, ?_, by rw [h], expectedResults_length _ _ 0⟩
  intro k hk
  rw [hd]
  exact List.mem_range.mpr hk

/-- C1 amended witness: the counterexample scenario satisfies every premise
of the amended claim, and all three positions are dispatched. -/
theorem drift_does_not_interrupt_witness :
    dispatched envDrift [actA, actB, actC] = List.range 3 ∧
    (∀ k, k < ([actA, actB, actC] : List ActionObj).length →
      k ∈ dispatched envDrift [actA, actB, actC]) ∧
    (execLoop envDrift.dispatch [actA, actB, actC] 0).1 =
      LoopOut.ok (expectedResults envDrift.dispatch [actA, actB, actC] 0) ∧
    (expectedResults envDrift.dispatch [actA, actB, actC] 0).length = 3 :=
  drift_does_not_interrupt envDrift [actA, actB, actC] 0
    (by decide) (by decide) (by decide) (by decide)
    (fun j hj => ⟨⟨none, none⟩, rfl, rfl⟩)

/-- C2 counterexample: a list whose first entry lacks the `"name"` key,
followed by a well-formed entry.  The claim requires that nothing from the
malformed entry onward be dispatched; the code records the invalid-format
error and then dispatches the following entry (position 1), whose content is
returned after the error line. -/
theorem malformed_entry_counterexample :
    badAct.name = none ∧
    dispatched envContent [badAct, actB] = [1] ∧
    execute_multiple_actions envContent [badAct, actB] =
      invalidFormatMsg ++ "\n" ++ "OK" := by
  refine ⟨rfl, by decide, by decide⟩

/-- C2 amended: a malformed entry (missing `"name"` or `"params"`) at
position `i` causes the invalid-format error to be recorded for it and that
entry itself is never dispatched, but execution continues: the loop outcome
and dispatch trace for the remaining entries are exactly those of the rest
of the list. -/
theorem malformed_entry_skipped (d : Nat → Except String ActionResult)
    (a : ActionObj) (rest : List ActionObj) (i : Nat)
    (hmal : (a.name.isNone || a.params.isNone) = true) :
    (execLoop d (a :: rest) i).1 =
      pushResult invalidFormatMsg (execLoop d rest (i + 1)).1 ∧
    (execLoop d (a :: rest) i).2 = (execLoop d rest (i + 1)).2 ∧
    i ∉ (execLoop d (a :: rest) i).2 := by
  have h : execLoop d (a :: rest) i =
      (pushResult invalidFormatMsg (execLoop d rest (i + 1)).1,
       (execLoop d rest (i + 1)).2) := by
    simp [execLoop, hmal]
  refine ⟨by rw [h], by rw [h], ?_⟩
  rw [h]
  intro hmem
  have := execLoop_trace_ge d rest (i + 1) i hmem
  omega

/-- C2 amended witness: the malformed first entry is skipped, position 1 is
still dispatched, and position 0 never is. -/
theorem malformed_entry_skipped_witness :
    (execLoop envContent.dispatch [badAct, actB] 0).1 =
      pushResult invalidFormatMsg (execLoop envContent.dispatch [actB] 1).1 ∧
    (execLoop envContent.dispatch [badAct, actB] 0).2 =
      (execLoop envContent.dispatch [actB] 1).2 ∧
    0 ∉ (execLoop envContent.dispatch [badAct, actB] 0).2 :=
  malformed_entry_skipped envContent.dispatch badAct [actB] 0 (by decide)

/-- C3 counterexample: the dispatched result of action 0 carries the error
`"boom"`, but also non-empty extracted content `"DATA"`.  The claim requires
`"Error: boom"` to be recorded and the loop to halt at position 0; the code
instead records the content, continues, and dispatches position 1. -/
theorem error_halt_counterexample :
    envBoth.dispatch 0 = Except.ok ⟨some "DATA", some "boom"⟩ ∧
    truthy (some "boom") = true ∧
    dispatched envBoth [actA, actB] = [0, 1] ∧
    execute_multiple_actions envBoth [actA, actB] =
      "DATA" ++ "\n" ++ successMsg "scroll_down" := by
  refine ⟨rfl, by decide, by decide, by decide⟩

/-- C3 amended: when the dispatched result at position `i` carries a truthy
error and its extracted content is falsy (empty or absent), the loop records
exactly `"Error: <error>"` for it and halts: the dispatch trace is `[i]`, so
no later action is dispatched and no action is retried. -/
theorem error_halts_loop (d : Nat → Except String ActionResult)
    (a : ActionObj) (rest : List ActionObj) (i : Nat) (r : ActionResult)
    (hwfa : (a.name.isNone || a.params.isNone) = false)
    (hd : d i = Except.ok r)
    (hc : truthy r.extracted_content = false)
    (he : truthy r.error = true) :
    execLoop d (a :: rest) i = (LoopOut.ok ["Error: " ++ r.error.getD ""], [i]) := by
  simp [execLoop, hwfa, hd, hc, he]

/-- C3 amended witness: a content-free error result at position 0 halts a
two-action plan with the single recorded line `"Error: boom"`. -/
theorem error_halts_loop_witness :
    execLoop (fun _ => Except.ok ⟨none, some "boom"⟩) [actA, actB] 0 =
      (LoopOut.ok ["Error: " ++ "boom"], [0]) :=
  error_halts_loop (fun _ => Except.ok ⟨none, some "boom"⟩) actA [actB] 0
    ⟨none, some "boom"⟩ (by decide) rfl rfl rfl

/-- C9: extracted content takes precedence over error.  For a well-formed
entry at position `i` whose dispatched result has truthy extracted content,
the content is recorded and the loop continues into the rest of the list
(no assumption on the error field); the loop halts on the error branch only
when the extracted content is falsy and the error truthy, recording
`"Error: <error>"` with dispatch trace `[i]`. -/
theorem content_precedence_over_error (d : Nat → Except String ActionResult)
    (a : ActionObj) (rest : List ActionObj) (i : Nat) (r : ActionResult)
    (hwfa : (a.name.isNone || a.params.isNone) = false)
    (hd : d i = Except.ok r) :
    (truthy r.extracted_content = true →
      execLoop d (a :: rest) i =
        (pushResult (r.extracted_content.getD "") (execLoop d rest (i + 1)).1,
         i :: (execLoop d rest (i + 1)).2)) ∧
    (truthy r.extracted_content = false → truthy r.error = true →
      execLoop d (a :: rest) i =
        (LoopOut.ok ["Error: " ++ r.error.getD ""], [i])) := by
  constructor
  · intro hc
    simp [execLoop, hwfa, hd, hc]
  · intro hc he
    simp [execLoop, hwfa, hd, hc, he]

/-- C9 witness: a result carrying both content `"DATA"` and error `"boom"`
is recorded as its content and the loop continues into the rest (the second
action is dispatched); a result carrying only the error halts the loop. -/
theorem content_precedence_over_error_witness :
    execLoop envBoth.dispatch [actA, actB] 0 =
      (pushResult "DATA" (execLoop envBoth.dispatch [actB] 1).1,
       0 :: (execLoop envBoth.dispatch [actB] 1).2) ∧
    execLoop (fun _ => Except.ok ⟨some "", some "boom"⟩) [actA, actB] 0 =
      (LoopOut.ok ["Error: " ++ "boom"], [0]) :=
  ⟨(content_precedence_over_error envBoth.dispatch actA [actB] 0
      ⟨some "DATA", some "boom"⟩ (by decide) rfl).1 rfl,
   (content_precedence_over_error (fun _ => Except.ok ⟨some "", some "boom"⟩)
      actA [actB] 0 ⟨some "", some "boom"⟩ (by decide) rfl).2 rfl rfl⟩

/-- C5 counterexample: on the empty actions list the code returns the empty
string — not an error result describing a precondition violation (every
error text in this function starts with `"Error"`). -/
theorem empty_actions_counterexample :
    execute_multiple_actions envNoDrift [] = "" ∧
    "Error".isPrefixOf (execute_multiple_actions envNoDrift []) = false ∧
    dispatched envNoDrift [] = [] := by
  refine ⟨rfl, by decide, rfl⟩

/-- C5 amended: for the empty actions list `execute_multiple_actions`
dispatches nothing and returns the empty string; no error result is
produced and no fault is raised. -/
theorem empty_actions_returns_empty (env : BrowserEnv) :
    execute_multiple_actions env [] = "" ∧ dispatched env [] = [] :=
  ⟨rfl, rfl⟩

/-- C6: every tool converts a raised exception during state read or dispatch
into a returned text error message instead of propagating it: each tool is a
total function into `String`, and on the exception `e` it returns exactly the
logged `"Error ...: " ++ e` text.  For `execute_multiple_actions`, whenever
the loop ends in a raised exception `e`, the tool returns the corresponding
error text. -/
theorem tool_errors_are_caught (e name url text goal : String) (idx : Int)
    (amount : Option Int) (env : BrowserEnv) (actions : List ActionObj) :
    get_browser_state (Except.error e) = "Error getting browser state: " ++ e ∧
    execute_action name (Except.error e) = "Error executing action: " ++ e ∧
    navigate_to_url url (Except.error e) = "Error navigating to URL: " ++ e ∧
    click_element idx (Except.error e) = "Error clicking element: " ++ e ∧
    input_text idx text (Except.error e) = "Error inputting text: " ++ e ∧
    scroll_down amount (Except.error e) = "Error scrolling down: " ++ e ∧
    extract_content goal (Except.error e) = "Error extracting content: " ++ e ∧
    ((execLoop env.dispatch actions 0).1 = LoopOut.exn e →
      execute_multiple_actions env actions =
        "Error executing multiple actions: " ++ e) := by
  refine ⟨rfl, rfl, rfl, rfl, rfl, rfl, rfl, fun h => ?_⟩
  unfold execute_multiple_actions
  rw [h]

/-- C6 witness: with a dispatcher that raises `"boom"`, the loop ends in the
exception and `execute_multiple_actions` returns the error text. -/
theorem tool_errors_are_caught_witness :
    (execLoop envExn.dispatch [actA] 0).1 = LoopOut.exn "boom" ∧
    execute_multiple_actions envExn [actA] =
      "Error executing multiple actions: " ++ "boom" :=
  ⟨rfl, (tool_errors_are_caught "boom" "n" "u" "t" "g" 0 none envExn [actA]).2.2.2.2.2.2.2 rfl⟩

/-- C7: the text returned by `execute_action` for a dispatched result is the
extracted content when it is truthy (populated), otherwise `"Error: <error>"`
when the error is truthy, otherwise the bare-success message
`"Action <name> executed successfully"`. -/
theorem execute_action_result_mapping (name : String) (r : ActionResult) :
    (truthy r.extracted_content = true →
      execute_action name (Except.ok r) = r.extracted_content.getD "") ∧
    (truthy r.extracted_content = false → truthy r.error = true →
      execute_action name (Except.ok r) = "Error: " ++ r.error.getD "") ∧
    (truthy r.extracted_content = false → truthy r.error = false →
      execute_action name (Except.ok r) = successMsg name) := by
  refine ⟨fun hc => ?_, fun hc he => ?_, fun hc he => ?_⟩ <;>
    simp [execute_action, *]

/-- C7 witness: the three branches at concrete results. -/
theorem execute_action_result_mapping_witness :
    execute_action "a" (Except.ok ⟨some "X", none⟩) = "X" ∧
    execute_action "a" (Except.ok ⟨none, some "E"⟩) = "Error: " ++ "E" ∧
    execute_action "a" (Except.ok ⟨none, none⟩) = successMsg "a" :=
  ⟨(execute_action_result_mapping "a" ⟨some "X", none⟩).1 rfl,
   (execute_action_result_mapping "a" ⟨none, some "E"⟩).2.1 rfl rfl,
   (execute_action_result_mapping "a" ⟨none, none⟩).2.2 rfl rfl⟩

/-- C10: field presence is string truthiness.  For each single-action tool,
a dispatched result whose `extracted_content` is the empty string and whose
`error` is empty or absent is reported with the tool's generic success
message, not with the (empty) extracted content. -/
theorem empty_content_generic_success (name url text goal : String)
    (idx : Int) (amount : Option Int) (err : Option String)
    (herr : err = none ∨ err = some "") :
    execute_action name (Except.ok ⟨some "", err⟩) = successMsg name ∧
    navigate_to_url url (Except.ok ⟨some "", err⟩) =
      "Navigated to " ++ url ++ " successfully" ∧
    click_element idx (Except.ok ⟨some "", err⟩) =
      "Clicked element with index " ++ toString idx ++ " successfully" ∧
    input_text idx text (Except.ok ⟨some "", err⟩) =
      "Input text \x27" ++ text ++ "\x27 into element with index " ++
        toString idx ++ " successfully" ∧
    scroll_down amount (Except.ok ⟨some "", err⟩) = "Scrolled down successfully" ∧
    extract_content goal (Except.ok ⟨some "", err⟩) =
      "Extracted content successfully" := by
  rcases herr with rfl | rfl <;>
    exact ⟨rfl, rfl, rfl, rfl, rfl, rfl⟩

/-- C10 witness: the empty-content, empty-error result at concrete tool
arguments. -/
theorem empty_content_generic_success_witness :
    execute_action "a" (Except.ok ⟨some "", some ""⟩) = successMsg "a" ∧
    navigate_to_url "u" (Except.ok ⟨some "", some ""⟩) =
      "Navigated to " ++ "u" ++ " successfully" ∧
    click_element 3 (Except.ok ⟨some "", some ""⟩) =
      "Clicked element with index " ++ toString (3 : Int) ++ " successfully" ∧
    input_text 3 "t" (Except.ok ⟨some "", some ""⟩) =
      "Input text \x27" ++ "t" ++ "\x27 into element with index " ++
        toString (3 : Int) ++ " successfully" ∧
    scroll_down none (Except.ok ⟨some "", some ""⟩) = "Scrolled down successfully" ∧
    extract_content "g" (Except.ok ⟨some "", some ""⟩) =
      "Extracted content successfully" :=
  empty_content_generic_success "a" "u" "t" "g" 3 none (some "") (Or.inr rfl)

/-- C8: `browser_lifespan` acquires exactly one browser, one context and one
controller at startup, and its trace always ends with closing the context
and then the browser — also when the served body exits via an exception,
which is then passed through. -/
theorem lifespan_acquire_release (evs : List LifeEvent) (err : Option String)
    (hbody : ∀ ev ∈ evs, ∃ n, ev = LifeEvent.bodyStep n) :
    (browser_lifespan (evs, err)).1.count LifeEvent.acquireBrowser = 1 ∧
    (browser_lifespan (evs, err)).1.count LifeEvent.newContext = 1 ∧
    (browser_lifespan (evs, err)).1.count LifeEvent.newController = 1 ∧
    (browser_lifespan (evs, err)).1.count LifeEvent.closeContext = 1 ∧
    (browser_lifespan (evs, err)).1.count LifeEvent.closeBrowser = 1 ∧
    (∃ pre, (browser_lifespan (evs, err)).1 =
      pre ++ [LifeEvent.closeContext, LifeEvent.closeBrowser]) ∧
    (browser_lifespan (evs, err)).2 = err := by
  have hno : ∀ x : LifeEvent, (∀ n, x ≠ LifeEvent.bodyStep n) → evs.count x = 0 := by
    intro x hx
    refine List.count_eq_zero.mpr ?_
    intro hmem
    obtain ⟨n, hn⟩ := hbody x hmem
    exact hx n hn
  have h1 := hno LifeEvent.acquireBrowser (fun n h => by cases h)
  have h2 := hno LifeEvent.newContext (fun n h => by cases h)
  have h3 := hno LifeEvent.newController (fun n h => by cases h)
  have h4 := hno LifeEvent.closeContext (fun n h => by cases h)
  have h5 := hno LifeEvent.closeBrowser (fun n h => by cases h)
  refine ⟨?_, ?_, ?_, ?_, ?_, ?_, rfl⟩
  · simp [browser_lifespan, List.count_append, h1, List.count_cons]
  · simp [browser_lifespan, List.count_append, h2, List.count_cons]
  · simp [browser_lifespan, List.count_append, h3, List.count_cons]
  · simp [browser_lifespan, List.count_append, h4, List.count_cons]
  · simp [browser_lifespan, List.count_append, h5, List.count_cons]
  · exact ⟨[LifeEvent.acquireBrowser, LifeEvent.newContext,
      LifeEvent.newController] ++ evs, by simp [browser_lifespan]⟩

/-- C8 witness: a body that performs one step and raises still gets the
context and browser closed, in that order, and the exception is passed on. -/
theorem lifespan_acquire_release_witness :
    (browser_lifespan ([LifeEvent.bodyStep 0], some "crash")).1.count
      LifeEvent.acquireBrowser = 1 ∧
    (browser_lifespan ([LifeEvent.bodyStep 0], some "crash")).1.count
      LifeEvent.newContext = 1 ∧
    (browser_lifespan ([LifeEvent.bodyStep 0], some "crash")).1.count
      LifeEvent.newController = 1 ∧
    (browser_lifespan ([LifeEvent.bodyStep 0], some "crash")).1.count
      LifeEvent.closeContext = 1 ∧
    (browser_lifespan ([LifeEvent.bodyStep 0], some "crash")).1.count
      LifeEvent.closeBrowser = 1 ∧
    (∃ pre, (browser_lifespan ([LifeEvent.bodyStep 0], some "crash")).1 =
      pre ++ [LifeEvent.closeContext, LifeEvent.closeBrowser]) ∧
    (browser_lifespan ([LifeEvent.bodyStep 0], some "crash")).2 = some "crash" :=
  lifespan_acquire_release [LifeEvent.bodyStep 0] (some "crash")
    (fun ev h => ⟨0, List.mem_singleton.mp h⟩)
